import Mathlib

/-!
Verification of the `extract_structured.py` CLI bridge
(`src/services/python/extract_structured.py`).

The script imports the `langextract` library, parses CLI arguments,
performs a single extraction call, and serializes the result to JSON on
stdout; every exception inside the try block is converted to a JSON error
object on stderr with exit status 1.  The langextract library itself is
external: the extraction call is a parameter of the model, and the shapes
it produces (`Extraction`, `ExtractionResult`) are taken from the fields
the script reads (`extraction_class`, `extraction_text`, `attributes`,
`citations`, `extractions`, `model_id`, `usage_metadata`).
-/

namespace ExtractStructured

/-- A JSON value, the target of the script's serialization
(`json.dumps`).  Order of object fields is kept, as Python dicts keep
insertion order. -/
inductive Json where
  | null : Json
  | bool : Bool → Json
  | int : Int → Json
  | str : String → Json
  | arr : List Json → Json
  | obj : List (String × Json) → Json


/-- Look up a top-level key of a JSON object (first occurrence);
`none` when the key is absent or the value is not an object. -/
def Json.lookup : Json → String → Option Json
  | .obj fields, k => fields.lookup k
  | _, _ => none

/-- A Python exception as observed by the handler at
lines 94-96: its message (`str(e)`) and its class name
(`type(e).__name__`). -/
structure PyError where
  msg : String
  typeName : String


/-- A citation span as read by the script at lines 79-83:
`c.start`, `c.end`, `c.text`. -/
structure Citation where
  start : Int
  «end» : Int
  text : String


/-- An extraction item as read by the script at lines 75-84:
`e.extraction_class`, `e.extraction_text`, `e.attributes`, and the
`citations` attribute probed with `hasattr`.  `citations = none` models
an item without the attribute (`hasattr` false); `some none` models the
attribute present but bound to `None` (not iterable); `some (some cs)`
models an iterable sequence of citations. -/
structure Extraction where
  extraction_class : String
  extraction_text : String
  attributes : List (String × Json)
  citations : Option (Option (List Citation))


/-- The result object returned by `lx.extract`, as read by the script at
lines 86-89: `result.extractions`, `result.model_id`,
`result.usage_metadata`. -/
structure ExtractionResult where
  extractions : List Extraction
  model_id : String
  usage_metadata : Json


/-- An example record (`lx.data.ExampleData`) as constructed at
lines 50-59: a sample text and a list of demonstration extractions. -/
structure ExampleData where
  text : String
  extractions : List Extraction


/-- The hard-coded one-element example list built at lines 49-60. -/
def examples : List ExampleData :=
  [{ text := "Alice lives in Wonderland.",
     extractions :=
       [{ extraction_class := "entity",
          extraction_text := "Alice",
          attributes :=
            [("type", Json.str "person"), ("context", Json.str "protagonist")],
          citations := none }] }]

/-- The parsed CLI arguments (lines 21-27): `--file` and `--prompt`
required, `--model` defaulted, `--schema` optional and unused. -/
structure Args where
  file : String
  prompt : String
  model : String
  schema : Option String


/-- The keyword arguments of the `lx.extract` call at lines 62-67. -/
structure ExtractCall where
  text_or_documents : String
  prompt_description : String
  model_id : String
  examples : List ExampleData


/-- The argument record the script passes to `lx.extract`
(lines 62-67): the `--file` string passed through as
`text_or_documents`, the prompt, the model id, and the hard-coded
example list. -/
def mkCall (args : Args) : ExtractCall :=
  { text_or_documents := args.file,
    prompt_description := args.prompt,
    model_id := args.model,
    examples := examples }

/-- The exception CPython raises when the comprehension at lines 78-83
iterates over a `citations` attribute bound to `None`. -/
def noneIterableError : PyError :=
  { msg := "\x27NoneType\x27 object is not iterable", typeName := "TypeError" }

/-- Serialization of one citation (lines 79-83). -/
def serializeCitation (c : Citation) : Json :=
  Json.obj [("start", Json.int c.start), ("end", Json.int c.«end»), ("text", Json.str c.text)]

/-- Serialization of one extraction item (lines 74-85): fields `class`,
`text`, `attributes`, `citations`; the `citations` attribute is probed
with `hasattr` and serialized to `[]` when absent, while iterating over
a `None` value raises a `TypeError`. -/
def serializeExtraction (e : Extraction) : Except PyError Json :=
  match e.citations with
  | none =>
      Except.ok (Json.obj
        [("class", Json.str e.extraction_class),
         ("text", Json.str e.extraction_text),
         ("attributes", Json.obj e.attributes),
         ("citations", Json.arr [])])
  | some none => Except.error noneIterableError
  | some (some cs) =>
      Except.ok (Json.obj
        [("class", Json.str e.extraction_class),
         ("text", Json.str e.extraction_text),
         ("attributes", Json.obj e.attributes),
         ("citations", Json.arr (cs.map serializeCitation))])

/-- The list comprehension over `result.extractions` (lines 73-87),
evaluated left to right; the first raising item aborts the whole
construction. -/
def serializeExtractions : List Extraction → Except PyError (List Json)
  | [] => Except.ok []
  | e :: rest =>
      match serializeExtraction e with
      | Except.error err => Except.error err
      | Except.ok j =>
          match serializeExtractions rest with
          | Except.error err => Except.error err
          | Except.ok js => Except.ok (j :: js)

/-- Construction of the output dict at lines 72-90: top-level fields
`extractions`, `model`, `usage`. -/
def serializeOutput (r : ExtractionResult) : Except PyError Json :=
  match serializeExtractions r.extractions with
  | Except.error err => Except.error err
  | Except.ok items =>
      Except.ok (Json.obj
        [("extractions", Json.arr items),
         ("model", Json.str r.model_id),
         ("usage", r.usage_metadata)])

/-- The options collected while scanning `sys.argv[1:]`. -/
structure RawOpts where
  file : Option String
  prompt : Option String
  model : Option String
  schema : Option String

/-- Scanning of the argument vector for the four declared options.
Models CPython `argparse` option matching for the space-separated
`--opt value` form declared at lines 22-25; anything else
(an unrecognized argument, or an option missing its value) is a usage
error, reported as `none`. -/
def scanArgv : List String → RawOpts → Option RawOpts
  | [], acc => some acc
  | "--file" :: v :: rest, acc => scanArgv rest { acc with file := some v }
  | "--prompt" :: v :: rest, acc => scanArgv rest { acc with prompt := some v }
  | "--model" :: v :: rest, acc => scanArgv rest { acc with model := some v }
  | "--schema" :: v :: rest, acc => scanArgv rest { acc with schema := some v }
  | _ :: _, _ => none

/-- The usage text `argparse` writes to stderr before exiting on a
usage error (not JSON). -/
def usageText : String :=
  "usage: extract_structured.py [-h] --file FILE --prompt PROMPT [--model MODEL] [--schema SCHEMA]"

/-- The call `parser.parse_args()` at line 27.  Models CPython `argparse`
semantics for the parser declared at lines 21-25: on a usage error
(missing required `--file` or `--prompt`, unrecognized argument, or an
option without a value) `argparse` calls `parser.error`, which prints a
usage message to stderr and exits the process with status 2; otherwise
the parsed namespace is returned, with `--model` defaulted to
`gemini-2.0-flash` (line 24). -/
def parse_args (argv : List String) : Except String Args :=
  match scanArgv argv ⟨none, none, none, none⟩ with
  | none => Except.error usageText
  | some opts =>
      match opts.file, opts.prompt with
      | some f, some p =>
          Except.ok { file := f, prompt := p,
                      model := opts.model.getD "gemini-2.0-flash",
                      schema := opts.schema }
      | _, _ => Except.error usageText

/-- One item written to stdout or stderr: either a JSON document
(`pretty` records whether it was dumped with `indent=2`) or plain
text. -/
inductive Emitted where
  | json : Bool → Json → Emitted
  | text : String → Emitted

/-- The observable outcome of one process run: the sequence of items
written to stdout, to stderr, and the exit status. -/
structure ProcResult where
  stdout : List Emitted
  stderr : List Emitted
  exitCode : Nat

/-- The JSON error object built by the handler at line 95:
`{"error": str(e), "type": type(e).__name__}`. -/
def errorJson (e : PyError) : Json :=
  Json.obj [("error", Json.str e.msg), ("type", Json.str e.typeName)]

/-- The JSON object printed to stderr when `import langextract` fails
(line 12).  Note it carries only the `error` key, no `type` key. -/
def importErrorJson : Json :=
  Json.obj [("error", Json.str "langextract not installed. Please run \x27pip install -r services/python/requirements.txt\x27")]

/-- The body of the `try` block as far as exceptions are concerned
(lines 35-92): the `lx.extract` call followed by serialization of its
result; any raised exception propagates to the handler. -/
def tryBlock (lxExtract : ExtractCall → Except PyError ExtractionResult)
    (args : Args) : Except PyError Json :=
  match lxExtract (mkCall args) with
  | Except.error err => Except.error err
  | Except.ok r => serializeOutput r

/-- One whole run of the script, parameterized by whether the
`langextract` import succeeds and by the behavior of the external
`lx.extract` call.  Returns the list of `lx.extract` invocations made
together with the process outcome:

* import failure (lines 9-13): the error JSON goes to stderr and the
  process exits 1 before `main` — and hence before argument parsing —
  runs;
* usage error (lines 21-27): `argparse` prints usage text to stderr and
  exits 2;
* exception in the try block (lines 94-97): compact error JSON on
  stderr, exit 1;
* success (lines 92, 99-100): pretty-printed (`indent=2`) output JSON
  on stdout, and `main` returns, so the interpreter exits 0. -/
def run (importOk : Bool)
    (lxExtract : ExtractCall → Except PyError ExtractionResult)
    (argv : List String) : List ExtractCall × ProcResult :=
  if importOk then
    match parse_args argv with
    | Except.error usage =>
        ([], { stdout := [], stderr := [Emitted.text usage], exitCode := 2 })
    | Except.ok args =>
        match tryBlock lxExtract args with
        | Except.ok output =>
            ([mkCall args],
             { stdout := [Emitted.json true output], stderr := [], exitCode := 0 })
        | Except.error e =>
            ([mkCall args],
             { stdout := [], stderr := [Emitted.json false (errorJson e)], exitCode := 1 })
  else
    ([], { stdout := [], stderr := [Emitted.json false importErrorJson], exitCode := 1 })

/-- The pattern `pat` occurs as a substring of `s`. -/
def strMentions (s pat : String) : Prop :=
  ∃ pre post : String, pre ++ pat ++ post = s

/-- A successfully serialized extraction list is the pointwise, in-order
image of the input list. -/
theorem serializeExtractions_spec (l : List Extraction) :
    ∀ js : List Json, serializeExtractions l = Except.ok js →
      js.length = l.length ∧
      ∀ i (hi : i < l.length) (hj : i < js.length),
        serializeExtraction (l.get ⟨i, hi⟩) = Except.ok (js.get ⟨i, hj⟩) := by
  induction l with
  | nil =>
      intro js h
      simp only [serializeExtractions] at h
      cases h
      exact ⟨rfl, fun i hi _ => absurd hi (Nat.not_lt_zero i)⟩
  | cons e rest ih =>
      intro js h
      simp only [serializeExtractions] at h
      cases he : serializeExtraction e with
      | error err => rw [he] at h; cases h
      | ok j =>
          rw [he] at h
          cases hr : serializeExtractions rest with
          | error err => rw [hr] at h; cases h
          | ok js' =>
              rw [hr] at h
              cases h
              obtain ⟨hlen, hget⟩ := ih js' hr
              refine ⟨by simp [hlen], ?_⟩
              intro i hi hj
              cases i with
              | zero => simpa using he
              | succ k =>
                  simpa using hget k (Nat.lt_of_succ_lt_succ hi) (Nat.lt_of_succ_lt_succ hj)

/-- Every member of a successfully serialized extraction list is an
object with exactly the four fields `class`, `text`, `attributes`,
`citations`. -/
theorem serializeExtractions_shape (l : List Extraction) :
    ∀ js : List Json, serializeExtractions l = Except.ok js →
      ∀ j ∈ js, ∃ c t a cs, j = Json.obj
        [("class", Json.str c), ("text", Json.str t),
         ("attributes", Json.obj a), ("citations", Json.arr cs)] := by
  induction l with
  | nil =>
      intro js h
      simp only [serializeExtractions] at h
      cases h
      intro j hj
      cases hj
  | cons e rest ih =>
      intro js h
      simp only [serializeExtractions] at h
      cases he : serializeExtraction e with
      | error err => rw [he] at h; cases h
      | ok j =>
          rw [he] at h
          cases hr : serializeExtractions rest with
          | error err => rw [hr] at h; cases h
          | ok js' =>
              rw [hr] at h
              cases h
              intro x hx
              cases hx with
              | head =>
                  cases hcit : e.citations with
                  | none =>
                      rw [serializeExtraction, hcit] at he
                      cases he
                      exact ⟨_, _, _, _, rfl⟩
                  | some v =>
                      cases v with
                      | none => rw [serializeExtraction, hcit] at he; cases he
                      | some cs =>
                          rw [serializeExtraction, hcit] at he
                          cases he
                          exact ⟨_, _, _, _, rfl⟩
              | tail _ hmem => exact ih js' hr x hmem

/-- If some item of the list exposes a `citations` attribute bound to
`None`, the whole comprehension raises the `TypeError`. -/
theorem serializeExtractions_error_of_mem (l : List Extraction)
    (h : ∃ e ∈ l, e.citations = some none) :
    serializeExtractions l = Except.error noneIterableError := by
  induction l with
  | nil => obtain ⟨e, he, _⟩ := h; cases he
  | cons e rest ih =>
      obtain ⟨x, hx, hcit⟩ := h
      cases hx with
      | head =>
          simp only [serializeExtractions, serializeExtraction, hcit]
      | tail _ hmem =>
          simp only [serializeExtractions]
          cases he : serializeExtraction e with
          | error err =>
              cases hcite : e.citations with
              | none => rw [serializeExtraction, hcite] at he; cases he
              | some v =>
                  cases v with
                  | none => rw [serializeExtraction, hcite] at he; cases he; rfl
                  | some cs => rw [serializeExtraction, hcite] at he; cases he
          | ok j =>
              rw [ih ⟨x, hmem, hcit⟩]

/-! Concrete sample data used by the witnesses. -/

/-- A sample item without a `citations` attribute. -/
def sampleItemNoCit : Extraction :=
  { extraction_class := "person", extraction_text := "Alice",
    attributes := [("role", Json.str "hero")], citations := none }

/-- A sample item with one citation. -/
def sampleItemCit : Extraction :=
  { extraction_class := "place", extraction_text := "Wonderland",
    attributes := [], citations := some (some [{ start := 15, «end» := 25, text := "Wonderland" }]) }

/-- A sample library result with two items. -/
def sampleResult : ExtractionResult :=
  { extractions := [sampleItemNoCit, sampleItemCit],
    model_id := "gemini-2.0-flash", usage_metadata := Json.null }

/-- The serialization of `sampleResult`. -/
def sampleOutput : Json :=
  Json.obj
    [("extractions", Json.arr
       [Json.obj
          [("class", Json.str "person"), ("text", Json.str "Alice"),
           ("attributes", Json.obj [("role", Json.str "hero")]),
           ("citations", Json.arr [])],
        Json.obj
          [("class", Json.str "place"), ("text", Json.str "Wonderland"),
           ("attributes", Json.obj []),
           ("citations", Json.arr
              [Json.obj [("start", Json.int 15), ("end", Json.int 25),
                         ("text", Json.str "Wonderland")]])]]),
     ("model", Json.str "gemini-2.0-flash"),
     ("usage", Json.null)]

/-- A sample argument vector. -/
def sampleArgv : List String := ["--file", "notes.txt", "--prompt", "extract entities"]

/-- The namespace `parse_args` produces on `sampleArgv`. -/
def sampleArgs : Args :=
  { file := "notes.txt", prompt := "extract entities",
    model := "gemini-2.0-flash", schema := none }

/-- C1: for every successful run, the `extractions` array of the output
JSON has the same length as the extraction sequence returned by the
library call, and its `i`-th entry is the serialization of the `i`-th
returned item — the bridge reorders, filters, and deduplicates
nothing. -/
theorem claim_C1 (r : ExtractionResult) (j : Json)
    (h : serializeOutput r = Except.ok j) :
    ∃ items : List Json,
      j.lookup "extractions" = some (Json.arr items) ∧
      items.length = r.extractions.length ∧
      ∀ i (hi : i < r.extractions.length) (hj : i < items.length),
        serializeExtraction (r.extractions.get ⟨i, hi⟩) = Except.ok (items.get ⟨i, hj⟩) := by
  simp only [serializeOutput] at h
  cases hs : serializeExtractions r.extractions with
  | error err => rw [hs] at h; cases h
  | ok items =>
      rw [hs] at h
      cases h
      obtain ⟨hlen, hget⟩ := serializeExtractions_spec _ _ hs
      exact ⟨items, rfl, hlen, hget⟩

/-- Witness for C1 at `sampleResult`. -/
theorem claim_C1_witness :
    serializeOutput sampleResult = Except.ok sampleOutput ∧
    (∃ items : List Json,
      sampleOutput.lookup "extractions" = some (Json.arr items) ∧
      items.length = sampleResult.extractions.length ∧
      ∀ i (hi : i < sampleResult.extractions.length) (hj : i < items.length),
        serializeExtraction (sampleResult.extractions.get ⟨i, hi⟩)
          = Except.ok (items.get ⟨i, hj⟩)) :=
  ⟨rfl, claim_C1 sampleResult sampleOutput rfl⟩

/-- C2: on every successful run the process writes to stdout one
pretty-printed JSON object whose top-level fields are exactly
`extractions`, `model` (the result's model identifier string) and
`usage` (the result's usage object, verbatim), each extraction entry
carrying exactly the fields `class`, `text`, `attributes`, `citations`,
and exits with status 0 writing nothing to stderr. -/
theorem claim_C2 (f : ExtractCall → Except PyError ExtractionResult)
    (argv : List String) (args : Args) (r : ExtractionResult) (out : Json)
    (hp : parse_args argv = Except.ok args)
    (hx : f (mkCall args) = Except.ok r)
    (hs : serializeOutput r = Except.ok out) :
    (run true f argv).2 = { stdout := [Emitted.json true out], stderr := [], exitCode := 0 } ∧
    ∃ items : List Json,
      out = Json.obj
        [("extractions", Json.arr items),
         ("model", Json.str r.model_id),
         ("usage", r.usage_metadata)] ∧
      ∀ j ∈ items, ∃ c t a cs, j = Json.obj
        [("class", Json.str c), ("text", Json.str t),
         ("attributes", Json.obj a), ("citations", Json.arr cs)] := by
  have htry : tryBlock f args = Except.ok out := by
    simp only [tryBlock, hx]; exact hs
  refine ⟨by simp [run, hp, htry], ?_⟩
  simp only [serializeOutput] at hs
  cases hl : serializeExtractions r.extractions with
  | error err => rw [hl] at hs; cases hs
  | ok items =>
      rw [hl] at hs
      cases hs
      exact ⟨items, rfl, serializeExtractions_shape _ _ hl⟩

/-- Witness for C2 on a run with `sampleArgv` and a mocked call
returning `sampleResult`. -/
theorem claim_C2_witness :
    parse_args sampleArgv = Except.ok sampleArgs ∧
    serializeOutput sampleResult = Except.ok sampleOutput ∧
    ((run true (fun _ => Except.ok sampleResult) sampleArgv).2
        = { stdout := [Emitted.json true sampleOutput], stderr := [], exitCode := 0 } ∧
     ∃ items : List Json,
       sampleOutput = Json.obj
         [("extractions", Json.arr items),
          ("model", Json.str sampleResult.model_id),
          ("usage", sampleResult.usage_metadata)] ∧
       ∀ j ∈ items, ∃ c t a cs, j = Json.obj
         [("class", Json.str c), ("text", Json.str t),
          ("attributes", Json.obj a), ("citations", Json.arr cs)]) :=
  ⟨rfl, rfl,
   claim_C2 (fun _ => Except.ok sampleResult) sampleArgv sampleArgs sampleResult sampleOutput
     rfl rfl rfl⟩

/-- C3: every exception raised during the extraction call or during
serialization of the result leads to a run that writes nothing to
stdout, writes to stderr one JSON object whose `error` field is the
exception's message and whose `type` field is the exception's class
name, and exits with status 1. -/
theorem claim_C3 (f : ExtractCall → Except PyError ExtractionResult)
    (argv : List String) (args : Args) (e : PyError)
    (hp : parse_args argv = Except.ok args)
    (he : tryBlock f args = Except.error e) :
    (run true f argv).2 =
      { stdout := [],
        stderr := [Emitted.json false (Json.obj
          [("error", Json.str e.msg), ("type", Json.str e.typeName)])],
        exitCode := 1 } := by
  simp [run, hp, he, errorJson]

/-- Witness for C3: a mocked extraction call raising
`Exception: rate limited`. -/
theorem claim_C3_witness :
    parse_args sampleArgv = Except.ok sampleArgs ∧
    tryBlock (fun _ => Except.error { msg := "rate limited", typeName := "Exception" }) sampleArgs
      = Except.error { msg := "rate limited", typeName := "Exception" } ∧
    (run true (fun _ => Except.error { msg := "rate limited", typeName := "Exception" }) sampleArgv).2 =
      { stdout := [],
        stderr := [Emitted.json false (Json.obj
          [("error", Json.str "rate limited"), ("type", Json.str "Exception")])],
        exitCode := 1 } :=
  ⟨rfl, rfl,
   claim_C3 (fun _ => Except.error { msg := "rate limited", typeName := "Exception" })
     sampleArgv sampleArgs { msg := "rate limited", typeName := "Exception" } rfl rfl⟩

/-- Every usage error of `parse_args` is reported with the usage text. -/
theorem parse_args_error_eq (argv : List String) (u : String)
    (h : parse_args argv = Except.error u) : u = usageText := by
  simp only [parse_args] at h
  split at h
  · cases h; rfl
  · split at h
    · cases h
    · cases h; rfl

/-- C4 fails on the code: a usage error (here a missing `--prompt`)
exits with status 2, not 1, and the import-failure JSON error object
has no `type` key. -/
theorem claim_C4_counterex :
    ((run true (fun _ => Except.ok sampleResult) ["--file", "a.txt"]).2.exitCode = 2) ∧
    ((run false (fun _ => Except.ok sampleResult) []).2.exitCode = 1 ∧
     (run false (fun _ => Except.ok sampleResult) []).2.stderr
        = [Emitted.json false importErrorJson] ∧
     importErrorJson.lookup "type" = none) :=
  ⟨rfl, rfl, rfl, rfl⟩

/-- C4 amended: every failing run writes nothing to stdout; a failure
caught inside the script (import failure or an exception in the try
block) exits with status 1 and writes one JSON object to stderr whose
first field is `error` and which carries either no further field
(import failure) or exactly a `type` field (try-block exception); a
usage error from a missing required argument exits with status 2 and
writes the plain (non-JSON) usage text to stderr. -/
theorem claim_C4 (importOk : Bool)
    (f : ExtractCall → Except PyError ExtractionResult) (argv : List String)
    (hfail : (run importOk f argv).2.exitCode ≠ 0) :
    (run importOk f argv).2.stdout = [] ∧
    (((run importOk f argv).2.exitCode = 1 ∧
      ∃ msg : String,
        (run importOk f argv).2.stderr
            = [Emitted.json false (Json.obj [("error", Json.str msg)])] ∨
        ∃ ty : String, (run importOk f argv).2.stderr
            = [Emitted.json false (Json.obj
                [("error", Json.str msg), ("type", Json.str ty)])]) ∨
     ((run importOk f argv).2.exitCode = 2 ∧
      (run importOk f argv).2.stderr = [Emitted.text usageText])) := by
  cases importOk with
  | false =>
      exact ⟨rfl, Or.inl ⟨rfl,
        "langextract not installed. Please run \x27pip install -r services/python/requirements.txt\x27",
        Or.inl rfl⟩⟩
  | true =>
      cases hp : parse_args argv with
      | error u =>
          have hu := parse_args_error_eq argv u hp
          subst hu
          refine ⟨?_, Or.inr ⟨?_, ?_⟩⟩ <;> simp [run, hp]
      | ok args =>
          cases ht : tryBlock f args with
          | ok out =>
              exact absurd (by simp [run, hp, ht]) hfail
          | error e =>
              refine ⟨?_, Or.inl ⟨?_, e.msg, Or.inr ⟨e.typeName, ?_⟩⟩⟩ <;>
                simp [run, hp, ht, errorJson]

/-- Witness for C4 at a run with no arguments (missing required
`--file` and `--prompt`). -/
theorem claim_C4_witness :
    (run true (fun _ => Except.ok sampleResult) []).2.exitCode ≠ 0 ∧
    ((run true (fun _ => Except.ok sampleResult) []).2.stdout = [] ∧
     (((run true (fun _ => Except.ok sampleResult) []).2.exitCode = 1 ∧
       ∃ msg : String,
         (run true (fun _ => Except.ok sampleResult) []).2.stderr
             = [Emitted.json false (Json.obj [("error", Json.str msg)])] ∨
         ∃ ty : String, (run true (fun _ => Except.ok sampleResult) []).2.stderr
             = [Emitted.json false (Json.obj
                 [("error", Json.str msg), ("type", Json.str ty)])]) ∨
      ((run true (fun _ => Except.ok sampleResult) []).2.exitCode = 2 ∧
       (run true (fun _ => Except.ok sampleResult) []).2.stderr = [Emitted.text usageText]))) :=
  ⟨by decide, claim_C4 true (fun _ => Except.ok sampleResult) [] (by decide)⟩

/-- C5: an extraction item that does not expose a `citations` attribute
serializes with a `citations` field that is present and is the empty
JSON array (not null, not absent). -/
theorem claim_C5 (e : Extraction) (h : e.citations = none) :
    ∃ j : Json, serializeExtraction e = Except.ok j ∧
      j.lookup "citations" = some (Json.arr []) := by
  have hse : serializeExtraction e = Except.ok (Json.obj
      [("class", Json.str e.extraction_class),
       ("text", Json.str e.extraction_text),
       ("attributes", Json.obj e.attributes),
       ("citations", Json.arr [])]) := by
    simp only [serializeExtraction, h]
  exact ⟨_, hse, rfl⟩

/-- Witness for C5 at `sampleItemNoCit`. -/
theorem claim_C5_witness :
    sampleItemNoCit.citations = none ∧
    ∃ j : Json, serializeExtraction sampleItemNoCit = Except.ok j ∧
      j.lookup "citations" = some (Json.arr []) :=
  ⟨rfl, claim_C5 sampleItemNoCit rfl⟩

/-- C6 fails on the code: the bridge copies citation offsets verbatim
and never checks `start` ≤ `end`; an item with one citation whose
offsets are `start = 1`, `end = 0` serializes successfully to an entry
with `start` > `end`. -/
theorem claim_C6_counterex :
    serializeExtraction
      { extraction_class := "entity", extraction_text := "Alice",
        attributes := [],
        citations := some (some [{ start := 1, «end» := 0, text := "Alice" }]) }
      = Except.ok (Json.obj
          [("class", Json.str "entity"), ("text", Json.str "Alice"),
           ("attributes", Json.obj []),
           ("citations", Json.arr
             [Json.obj [("start", Json.int 1), ("end", Json.int 0),
                        ("text", Json.str "Alice")]])]) ∧
    ¬ ((1 : Int) ≤ (0 : Int)) :=
  ⟨rfl, by decide⟩

/-- C6 amended: for an item carrying N citations the serialized
`citations` array has exactly N entries, the i-th being an object with
fields `start`, `end`, `text` copied verbatim from the i-th citation —
so `start` ≤ `end` holds of an entry exactly when it holds of the
source citation; the bridge itself does not enforce it. -/
theorem claim_C6 (e : Extraction) (cs : List Citation)
    (h : e.citations = some (some cs)) :
    ∃ items : List Json,
      serializeExtraction e = Except.ok (Json.obj
        [("class", Json.str e.extraction_class),
         ("text", Json.str e.extraction_text),
         ("attributes", Json.obj e.attributes),
         ("citations", Json.arr items)]) ∧
      items.length = cs.length ∧
      ∀ i (hi : i < cs.length) (hj : i < items.length),
        items.get ⟨i, hj⟩ = Json.obj
          [("start", Json.int (cs.get ⟨i, hi⟩).start),
           ("end", Json.int (cs.get ⟨i, hi⟩).«end»),
           ("text", Json.str (cs.get ⟨i, hi⟩).text)] := by
  refine ⟨cs.map serializeCitation, by simp only [serializeExtraction, h], by simp, ?_⟩
  intro i hi hj
  simp [List.get_eq_getElem, List.getElem_map, serializeCitation]

/-- Witness for C6 at `sampleItemCit` (one citation). -/
theorem claim_C6_witness :
    sampleItemCit.citations
      = some (some [{ start := 15, «end» := 25, text := "Wonderland" }]) ∧
    ∃ items : List Json,
      serializeExtraction sampleItemCit = Except.ok (Json.obj
        [("class", Json.str sampleItemCit.extraction_class),
         ("text", Json.str sampleItemCit.extraction_text),
         ("attributes", Json.obj sampleItemCit.attributes),
         ("citations", Json.arr items)]) ∧
      items.length = 1 ∧
      ∀ i (hi : i < ([{ start := 15, «end» := 25, text := "Wonderland" }] : List Citation).length)
          (hj : i < items.length),
        items.get ⟨i, hj⟩ = Json.obj
          [("start", Json.int (([{ start := 15, «end» := 25, text := "Wonderland" }] : List Citation).get ⟨i, hi⟩).start),
           ("end", Json.int (([{ start := 15, «end» := 25, text := "Wonderland" }] : List Citation).get ⟨i, hi⟩).«end»),
           ("text", Json.str (([{ start := 15, «end» := 25, text := "Wonderland" }] : List Citation).get ⟨i, hi⟩).text)] :=
  ⟨rfl, claim_C6 sampleItemCit [{ start := 15, «end» := 25, text := "Wonderland" }] rfl⟩

/-- C7: when the `langextract` import fails the outcome is identical
for every argument vector and every extraction behavior (so the failure
is decided before argument parsing, and no extraction call is made),
the process exits with status 1, and stderr carries one JSON object
whose `error` value mentions the installation instructions for the
dependency. -/
theorem claim_C7 (f g : ExtractCall → Except PyError ExtractionResult)
    (argv argv' : List String) :
    run false f argv = run false g argv' ∧
    (run false f argv).1 = [] ∧
    (run false f argv).2.exitCode = 1 ∧
    (run false f argv).2.stderr = [Emitted.json false importErrorJson] ∧
    ∃ msg : String, importErrorJson.lookup "error" = some (Json.str msg) ∧
      strMentions msg "pip install -r services/python/requirements.txt" :=
  ⟨rfl, rfl, rfl, rfl,
   "langextract not installed. Please run \x27pip install -r services/python/requirements.txt\x27",
   rfl,
   "langextract not installed. Please run \x27", "\x27", rfl⟩

/-- C8: the extraction call receives as document reference the literal
`--file` string, unchanged, for every file string — the bridge performs
no existence or readability check before the call. -/
theorem claim_C8 (f : ExtractCall → Except PyError ExtractionResult)
    (argv : List String) (args : Args)
    (hp : parse_args argv = Except.ok args) :
    (run true f argv).1 = [mkCall args] ∧
    (mkCall args).text_or_documents = args.file := by
  refine ⟨?_, rfl⟩
  cases ht : tryBlock f args with
  | ok out => simp [run, hp, ht]
  | error e => simp [run, hp, ht]

/-- Witness for C8 with a file path that names no existing file. -/
theorem claim_C8_witness :
    parse_args ["--file", "missing.txt", "--prompt", "x"]
      = Except.ok { file := "missing.txt", prompt := "x",
                    model := "gemini-2.0-flash", schema := none } ∧
    ((run true (fun _ => Except.ok sampleResult) ["--file", "missing.txt", "--prompt", "x"]).1
        = [mkCall { file := "missing.txt", prompt := "x",
                    model := "gemini-2.0-flash", schema := none }] ∧
     (mkCall { file := "missing.txt", prompt := "x",
               model := "gemini-2.0-flash", schema := none }).text_or_documents
        = "missing.txt") :=
  ⟨rfl,
   claim_C8 (fun _ => Except.ok sampleResult) ["--file", "missing.txt", "--prompt", "x"]
     { file := "missing.txt", prompt := "x", model := "gemini-2.0-flash", schema := none }
     rfl⟩

/-- C9: the example set handed to the extraction call is the same
hard-coded one-element list for every pair of parsed argument records,
whatever `--file`, `--prompt`, `--model`, `--schema` were. -/
theorem claim_C9 (a₁ a₂ : Args) :
    (mkCall a₁).examples = (mkCall a₂).examples ∧
    (mkCall a₁).examples = examples ∧
    examples.length = 1 :=
  ⟨rfl, rfl, rfl⟩

/-- C10: when some returned item exposes a `citations` attribute bound
to `None`, serialization raises the `TypeError`, the run writes nothing
to stdout, writes the JSON error object to stderr, and exits with
status 1 — no empty `citations` array is emitted for that item. -/
theorem claim_C10 (f : ExtractCall → Except PyError ExtractionResult)
    (argv : List String) (args : Args) (r : ExtractionResult)
    (hp : parse_args argv = Except.ok args)
    (hx : f (mkCall args) = Except.ok r)
    (hbad : ∃ e ∈ r.extractions, e.citations = some none) :
    (run true f argv).2 =
      { stdout := [],
        stderr := [Emitted.json false (errorJson noneIterableError)],
        exitCode := 1 } := by
  have hser : serializeOutput r = Except.error noneIterableError := by
    simp only [serializeOutput, serializeExtractions_error_of_mem r.extractions hbad]
  have htry : tryBlock f args = Except.error noneIterableError := by
    simp only [tryBlock, hx]; exact hser
  simp [run, hp, htry]

/-- A sample library result whose only item has `citations = None`. -/
def badResult : ExtractionResult :=
  { extractions :=
      [{ extraction_class := "entity", extraction_text := "Alice",
         attributes := [], citations := some none }],
    model_id := "gemini-2.0-flash", usage_metadata := Json.null }

/-- Witness for C10 at `badResult`. -/
theorem claim_C10_witness :
    parse_args sampleArgv = Except.ok sampleArgs ∧
    (fun _ : ExtractCall => (Except.ok badResult : Except PyError ExtractionResult))
        (mkCall sampleArgs) = Except.ok badResult ∧
    (∃ e ∈ badResult.extractions, e.citations = some none) ∧
    (run true (fun _ => Except.ok badResult) sampleArgv).2 =
      { stdout := [],
        stderr := [Emitted.json false (errorJson noneIterableError)],
        exitCode := 1 } :=
  ⟨rfl, rfl, by simp [badResult],
   claim_C10 (fun _ => Except.ok badResult) sampleArgv sampleArgs badResult
     rfl rfl (by simp [badResult])⟩

end ExtractStructured
